import Mathlib

/-!
Shallow embedding of the extraction-and-consolidation pipeline of the
emi-calculator-india stock scraper, covering the two pipeline variants
(the serverless file scrape-stock.py and the standalone file
stock-scraper.py).  Numeric values are modelled as rationals; Python
dictionaries with optional keys become structures with Option fields.
-/

/-- Digit list to natural number, most significant first. -/
def digitsVal (l : List Char) : Nat :=
  l.foldl (fun a c => 10 * a + (c.toNat - 48)) 0

/-- Syntactic decomposition of a numeric string into sign flag, integer
part, fractional part and fractional length.  This is the pure-text half
of the Python builtin float: an optional single leading sign followed by
digits and at most one dot, with at least one digit; any other string is
rejected, as float raises on it after the cleaning done by the callers. -/
def parseParts (s : String) : Option (Bool × Nat × Nat × Nat) :=
  let cs := s.toList
  let signBody : Bool × List Char :=
    match cs with
    | '-' :: r => (true, r)
    | '+' :: r => (false, r)
    | r => (false, r)
  let body := signBody.2
  if body.all (fun c => c.isDigit || c = '.') ∧ body.count '.' ≤ 1 ∧
      body.any (fun c => c.isDigit) then
    let ip := body.takeWhile (fun c => c.isDigit)
    let rest := body.dropWhile (fun c => c.isDigit)
    match rest with
    | '.' :: fp => some (signBody.1, digitsVal ip, digitsVal fp, fp.length)
    | _ => some (signBody.1, digitsVal ip, 0, 0)
  else
    none

/-- Model of the Python builtin float on the strings reachable in this
pipeline: decompose the text, then build the rational value. -/
def pyFloat (s : String) : Option ℚ :=
  (parseParts s).map fun q =>
    match q with
    | (sgn, ip, fp, k) =>
      let mag : ℚ :=
        if k = 0 then (ip : ℚ) else (ip : ℚ) + (fp : ℚ) / (10 : ℚ) ^ k
      if sgn then -mag else mag

/-- Removal of every occurrence of one character, modelling the Python
replace of a single-character pattern by the empty string. -/
def dropChar (text : String) (ch : Char) : String :=
  (text.toList.filter (fun c => !(c = ch))).asString

/-- The cleaning step of clean_number in both files: drop commas, then
keep only digits, dots and minus signs. -/
def cleanedStr (text : String) : String :=
  ((dropChar text ',').toList.filter
    (fun c => c.isDigit || c = '.' || c = '-')).asString

/-- clean_number from both files: empty text gives none, otherwise the
cleaned residue is parsed as a float, with parse failure giving none. -/
def clean_number (text : String) : Option ℚ :=
  if text = "" then none
  else pyFloat (cleanedStr text)

/-- Leftmost-match attempt of the pattern sign-digits-optional-fraction
starting at the head of the character list, returning the matched
characters. -/
def matchNumAt (cs : List Char) : Option (List Char) :=
  let signRest : List Char × List Char :=
    match cs with
    | c :: r => if c = '+' || c = '-' then ([c], r) else ([], cs)
    | [] => ([], [])
  let ds := signRest.2.takeWhile (fun c => c.isDigit)
  let r2 := signRest.2.dropWhile (fun c => c.isDigit)
  if ds = [] then none
  else
    match r2 with
    | '.' :: r3 =>
      let fs := r3.takeWhile (fun c => c.isDigit)
      if fs = [] then some (signRest.1 ++ ds)
      else some (signRest.1 ++ ds ++ '.' :: fs)
    | _ => some (signRest.1 ++ ds)

/-- Leftmost search of the signed-decimal pattern over a character list,
modelling re.search with that pattern. -/
def searchNum : List Char → Option (List Char)
  | [] => none
  | c :: rest =>
    match matchNumAt (c :: rest) with
    | some m => some m
    | none => searchNum rest

/-- extract_percentage from both files: empty text gives none, otherwise
all percent signs are removed, the first signed decimal number is located
and parsed as a float. -/
def extract_percentage (text : String) : Option ℚ :=
  if text = "" then none
  else
    match searchNum ((dropChar text '%').toList) with
    | some m => pyFloat m.asString
    | none => none

/-- A partial observation: one scraped source dictionary.  Absent keys
and keys stored with value None both appear as none. -/
structure Obs where
  source : Option String
  current_price : Option ℚ
  change_percent : Option ℚ
  day_high : Option ℚ
  day_low : Option ℚ
deriving DecidableEq

/-- The consolidated quote record built by both consolidators. -/
structure Quote where
  symbol : String
  company_name : String
  current_price : ℚ
  change_percent : ℚ
  day_high : ℚ
  day_low : ℚ
  volume : ℚ
  last_updated : String
  sources : List String
  data_quality : String
deriving DecidableEq

/-- The per-field collection both consolidators perform: the Python list
comprehension keeps d.get(field) exactly when it is truthy, so present
nonzero values survive and absent, None or zero values are dropped. -/
def truthyVals (f : Obs → Option ℚ) (l : List Obs) : List ℚ :=
  l.filterMap fun d =>
    match f d with
    | some x => if x = 0 then none else some x
    | none => none

/-- The consensus selection both consolidators apply to a nonempty value
list: ascending sort, then the element at index length over two. -/
def medianSel (l : List ℚ) : ℚ :=
  (List.insertionSort (fun a b => a ≤ b) l).getD (l.length / 2) 0

/-- A field value in the consolidated output: zero when no values were
collected, otherwise the median selection. -/
def pickMedian (l : List ℚ) : ℚ :=
  if l = [] then 0 else medianSel l

/-- Model of _consolidate_data from scrape-stock.py: consolidates only
current_price and change_percent; day_high, day_low and volume stay 0. -/
def consolidate_data (scraped : List Obs) (symbol company now : String) : Quote :=
  if scraped = [] then
    { symbol := symbol, company_name := company, current_price := 0,
      change_percent := 0, day_high := 0, day_low := 0, volume := 0,
      last_updated := now, sources := [], data_quality := "low" }
  else
    { symbol := symbol, company_name := company,
      current_price := pickMedian (truthyVals Obs.current_price scraped),
      change_percent := pickMedian (truthyVals Obs.change_percent scraped),
      day_high := 0, day_low := 0, volume := 0, last_updated := now,
      sources := scraped.map (fun d => d.source.getD "Unknown"),
      data_quality :=
        if 3 ≤ scraped.length then "high"
        else if 2 ≤ scraped.length then "medium" else "low" }

/-- Model of _consolidate_stock_data from stock-scraper.py: consolidates all four
numeric fields; volume stays 0. -/
def consolidate_stock_data (scraped : List Obs) (symbol company now : String) : Quote :=
  if scraped = [] then
    { symbol := symbol, company_name := company, current_price := 0,
      change_percent := 0, day_high := 0, day_low := 0, volume := 0,
      last_updated := now, sources := [], data_quality := "low" }
  else
    { symbol := symbol, company_name := company,
      current_price := pickMedian (truthyVals Obs.current_price scraped),
      change_percent := pickMedian (truthyVals Obs.change_percent scraped),
      day_high := pickMedian (truthyVals Obs.day_high scraped),
      day_low := pickMedian (truthyVals Obs.day_low scraped),
      volume := 0, last_updated := now,
      sources := scraped.map (fun d => d.source.getD "Unknown"),
      data_quality :=
        if 3 ≤ scraped.length then "high"
        else if 2 ≤ scraped.length then "medium" else "low" }

/-- A parsed document, modelling the out-of-scope HTML parsing
primitive: a selector query returning the text of the first matching
element, when one exists. -/
def Soup : Type := String → Option String

/-- Lower-casing of a string, character by character. -/
def strLower (s : String) : String :=
  (s.toList.map Char.toLower).asString

/-- Contiguous-sublist test on character lists. -/
def hasInfix (needle : List Char) : List Char → Bool
  | [] => decide (needle = [])
  | c :: t => needle.isPrefixOf (c :: t) || hasInfix needle t

/-- Substring test on strings, modelling the Python in operator. -/
def strContains (needle hay : String) : Bool :=
  hasInfix needle.toList hay.toList

/-- Price selector lists of _extract_with_beautifulsoup in
scrape-stock.py, dispatched on the lower-cased source name. -/
def bsPriceSelectors (source : String) : List String :=
  let s := strLower source
  if strContains "moneycontrol" s then
    [".pcnstkprc", ".prc_flot", ".FL .gD_12", "[data-field=\"last_price\"]"]
  else if strContains "yahoo" s then
    ["[data-test=\"qsp-price\"]", ".Fw\\(b\\) .Fz\\(36px\\)", ".Trsdu\\(0\\.3s\\)"]
  else if strContains "economic times" s then
    [".price .number", ".last-price", ".current-price"]
  else
    [".price", ".current-price", ".last-price", ".ltp"]

/-- Change selector lists of _extract_with_beautifulsoup in
scrape-stock.py. -/
def bsChangeSelectors (source : String) : List String :=
  let s := strLower source
  if strContains "moneycontrol" s then
    [".gD_12 .FL", ".prcntchng", "[data-field=\"percentage_change\"]"]
  else if strContains "yahoo" s then
    ["[data-test=\"qsp-price-change-percent\"]", ".Fw\\(500\\)"]
  else if strContains "economic times" s then
    [".change .number", ".percentage-change"]
  else
    [".change", ".percentage", ".change-percent"]

/-- The price loop of _extract_with_beautifulsoup: first selector whose
element text cleans to a number that is truthy and positive. -/
def bsFirstPrice (soup : Soup) : List String → Option ℚ
  | [] => none
  | sel :: rest =>
    match soup sel with
    | some txt =>
      match clean_number txt with
      | some p => if 0 < p then some p else bsFirstPrice soup rest
      | none => bsFirstPrice soup rest
    | none => bsFirstPrice soup rest

/-- The change loop of _extract_with_beautifulsoup: first selector whose
element text yields any percentage value, zero included. -/
def bsFirstChange (soup : Soup) : List String → Option ℚ
  | [] => none
  | sel :: rest =>
    match soup sel with
    | some txt =>
      match extract_percentage txt with
      | some c => some c
      | none => bsFirstChange soup rest
    | none => bsFirstChange soup rest

/-- Model of _extract_with_beautifulsoup from scrape-stock.py: the observation is
returned only when the current_price key was set. -/
def extract_with_beautifulsoup (soup : Soup) (source : String) : Option Obs :=
  let price := bsFirstPrice soup (bsPriceSelectors source)
  let chg := bsFirstChange soup (bsChangeSelectors source)
  match price with
  | some p =>
    some { source := some source, current_price := some p,
           change_percent := chg, day_high := none, day_low := none }
  | none => none

/-- Price regex pattern list of _extract_with_regex in scrape-stock.py. -/
def regexPricePatterns : List String :=
  ["₹\\s*([0-9,]+(?:\\.[0-9]\x7b1,2\x7d)?)",
   "rs\\.?\\s*([0-9,]+(?:\\.[0-9]\x7b1,2\x7d)?)",
   "\"price\"[:\\s]*([0-9,]+(?:\\.[0-9]\x7b1,2\x7d)?)",
   "current[:\\s]*₹?\\s*([0-9,]+(?:\\.[0-9]\x7b1,2\x7d)?)",
   "last[:\\s]*₹?\\s*([0-9,]+(?:\\.[0-9]\x7b1,2\x7d)?)"]

/-- Percentage regex pattern list of _extract_with_regex in
scrape-stock.py. -/
def regexPercentPatterns : List String :=
  ["([+-]?\\d+(?:\\.\\d+)?)\\s*%",
   "change[:\\s]*([+-]?\\d+(?:\\.\\d+)?)\\s*%"]

/-- Inner price loop shared by both generic fallbacks: first regex match
that cleans to a truthy number inside the accepted range 1 to 100000. -/
def firstValidPrice : List String → Option ℚ
  | [] => none
  | m :: rest =>
    match clean_number m with
    | some p =>
      if p ≠ 0 ∧ 1 ≤ p ∧ p ≤ 100000 then some p else firstValidPrice rest
    | none => firstValidPrice rest

/-- Outer price loop over patterns: the list of matches of each pattern
is scanned until a pattern contributes a valid price. -/
def priceFromPatterns (findall : String → String → List String)
    (text : String) : List String → Option ℚ
  | [] => none
  | pat :: rest =>
    match firstValidPrice (findall pat text) with
    | some p => some p
    | none => priceFromPatterns findall text rest

/-- Inner change loop of _extract_with_regex: first parseable match
inside the accepted range -50 to 50. -/
def firstValidChange : List String → Option ℚ
  | [] => none
  | m :: rest =>
    match pyFloat m with
    | some c =>
      if -50 ≤ c ∧ c ≤ 50 then some c else firstValidChange rest
    | none => firstValidChange rest

/-- Outer change loop of _extract_with_regex over its two patterns. -/
def changeFromPatterns (findall : String → String → List String)
    (text : String) : List String → Option ℚ
  | [] => none
  | pat :: rest =>
    match firstValidChange (findall pat text) with
    | some c => some c
    | none => changeFromPatterns findall text rest

/-- Model of _extract_with_regex from scrape-stock.py.  The regex engine is the
out-of-scope stdlib primitive, passed in as the findall oracle mapping a
pattern and a text to the list of captured matches.  The observation is
returned only when the current_price key was set. -/
def extract_with_regex (findall : String → String → List String)
    (html source : String) : Option Obs :=
  let text := strLower html
  let price := priceFromPatterns findall text regexPricePatterns
  let chg := changeFromPatterns findall text regexPercentPatterns
  match price with
  | some p =>
    some { source := some source, current_price := some p,
           change_percent := chg, day_high := none, day_low := none }
  | none => none

/-- Price selector list of _scrape_moneycontrol in stock-scraper.py. -/
def mcPriceSelectors : List String :=
  [".pcnstkprc", ".prc_flot", ".FL .gD_12", "[data-field=\"last_price\"]", ".prc"]

/-- Change selector list of _scrape_moneycontrol in stock-scraper.py. -/
def mcChangeSelectors : List String :=
  [".gD_12 .FL", ".prcntchng", "[data-field=\"percentage_change\"]"]

/-- Day-high selector of _scrape_moneycontrol. -/
def mcHighSelector : String := "[data-field=\"day_high\"], .dayrangetd .FL"

/-- Day-low selector of _scrape_moneycontrol. -/
def mcLowSelector : String := "[data-field=\"day_low\"], .dayrangetd .FR"

/-- The price loop of _scrape_moneycontrol: first selector whose text
cleans to a truthy number; no positivity check is applied. -/
def mcFirstNumber (soup : Soup) : List String → Option ℚ
  | [] => none
  | sel :: rest =>
    match soup sel with
    | some txt =>
      match clean_number txt with
      | some p => if p ≠ 0 then some p else mcFirstNumber soup rest
      | none => mcFirstNumber soup rest
    | none => mcFirstNumber soup rest

/-- The change loop of _scrape_moneycontrol: first selector whose text
yields a truthy percentage. -/
def mcFirstPercent (soup : Soup) : List String → Option ℚ
  | [] => none
  | sel :: rest =>
    match soup sel with
    | some txt =>
      match extract_percentage txt with
      | some c => if c ≠ 0 then some c else mcFirstPercent soup rest
      | none => mcFirstPercent soup rest
    | none => mcFirstPercent soup rest

/-- Model of _scrape_moneycontrol from stock-scraper.py.  The day_high and
day_low keys are set whenever the element exists, the stored value being
whatever clean_number returns; the dictionary is returned as soon as it
is nonempty, so a price-less dictionary is still an observation. -/
def scrape_moneycontrol (soup : Soup) : Option Obs :=
  let price := mcFirstNumber soup mcPriceSelectors
  let chg := mcFirstPercent soup mcChangeSelectors
  let highTxt := soup mcHighSelector
  let lowTxt := soup mcLowSelector
  if price.isSome || chg.isSome || highTxt.isSome || lowTxt.isSome then
    some { source := none, current_price := price, change_percent := chg,
           day_high := highTxt.bind clean_number,
           day_low := lowTxt.bind clean_number }
  else none

/-- Price regex pattern list of _scrape_generic_financial_site in
stock-scraper.py. -/
def genericPricePatterns : List String :=
  ["₹\\s*([0-9,]+(?:\\.[0-9]\x7b1,2\x7d)?)",
   "rs\\.?\\s*([0-9,]+(?:\\.[0-9]\x7b1,2\x7d)?)",
   "price[:\\s]*([0-9,]+(?:\\.[0-9]\x7b1,2\x7d)?)",
   "([0-9,]+(?:\\.[0-9]\x7b1,2\x7d)?)\\s*rupees"]

/-- Percentage regex pattern of _scrape_generic_financial_site. -/
def genericPercentPattern : String := "([+-]?\\d+(?:\\.\\d+)?)\\s*%"

/-- Model of _scrape_generic_financial_site from stock-scraper.py: the price loop
applies the range filter, while the percentage takes the first match of
the single pattern with no range filter at all.  A float failure on that
match raises in Python and is caught by the caller as no observation,
modelled here by none. -/
def scrape_generic_financial_site (findall : String → String → List String)
    (html : String) : Option Obs :=
  let text := strLower html
  let price := priceFromPatterns findall text genericPricePatterns
  match findall genericPercentPattern text with
  | [] =>
    if price.isSome then
      some { source := none, current_price := price, change_percent := none,
             day_high := none, day_low := none }
    else none
  | m :: _ =>
    match pyFloat m with
    | some c =>
      some { source := none, current_price := price, change_percent := some c,
             day_high := none, day_low := none }
    | none => none

/-- The median selection agrees with the element at half length of any
ascending arrangement of the same values. -/
theorem medianSel_eq_sorted (l m : List ℚ) (hp : l.Perm m)
    (hs : m.Sorted (fun a b => a ≤ b)) :
    medianSel l = m.getD (m.length / 2) 0 := by
  have hsort : List.insertionSort (fun a b => a ≤ b) l = m :=
    List.eq_of_perm_of_sorted ((List.perm_insertionSort _ l).trans hp)
      (List.sorted_insertionSort _ l) hs
  rw [medianSel, hsort, hp.length_eq]

/-- The field selection agrees with the element at half length of any
ascending arrangement, the empty case giving the default 0. -/
theorem pickMedian_eq_sorted (l m : List ℚ) (hp : l.Perm m)
    (hs : m.Sorted (fun a b => a ≤ b)) :
    pickMedian l = m.getD (m.length / 2) 0 := by
  by_cases he : l = []
  · subst he
    have hm : m = [] := hp.symm.eq_nil
    subst hm
    rfl
  · rw [pickMedian, if_neg he]
    exact medianSel_eq_sorted l m hp hs

theorem parseParts_rupee : parseParts "123456.78" = some (false, 123456, 78, 2) := by
  decide

theorem pyFloat_rupee : pyFloat "123456.78" = some ((12345678 : ℚ) / 100) := by
  rw [pyFloat, parseParts_rupee]
  norm_num

theorem cleanedStr_rupee : cleanedStr "₹1,23,456.78" = "123456.78" := by decide

theorem clean_number_rupee :
    clean_number "₹1,23,456.78" = some ((12345678 : ℚ) / 100) := by
  rw [clean_number, if_neg (by decide), cleanedStr_rupee, pyFloat_rupee]

/-- Claim C8: clean_number strips separators and non-numeric characters
and parses the residue: the rupee-formatted text gives 123456.78, while
empty input and non-numeric residue give none. -/
theorem c8_clean_number_behaviour :
    clean_number "₹1,23,456.78" = some ((12345678 : ℚ) / 100)
    ∧ clean_number "" = none
    ∧ clean_number "abc" = none :=
  ⟨clean_number_rupee, rfl, by decide⟩

theorem pyFloat_pos25 : pyFloat "+2.5" = some ((5 : ℚ) / 2) := by
  have hp : parseParts "+2.5" = some (false, 2, 5, 1) := by decide
  rw [pyFloat, hp]
  norm_num

theorem pyFloat_neg31 : pyFloat "-3.1" = some (-((31 : ℚ) / 10)) := by
  have hp : parseParts "-3.1" = some (true, 3, 1, 1) := by decide
  rw [pyFloat, hp]
  norm_num

/-- Claim C9: extract_percentage removes percent signs and parses the
first signed decimal: plus 2.5 percent gives 5/2, minus 3.1 percent
gives -31/10, and empty or number-free input gives none. -/
theorem c9_extract_percentage_behaviour :
    extract_percentage "+2.5%" = some ((5 : ℚ) / 2)
    ∧ extract_percentage "-3.1%" = some (-((31 : ℚ) / 10))
    ∧ extract_percentage "" = none
    ∧ extract_percentage "abc" = none := by
  refine ⟨?_, ?_, rfl, by decide⟩
  · have h1 : searchNum ((dropChar "+2.5%" '%').toList) = some "+2.5".toList := by
      decide
    have h2 : ("+2.5".toList).asString = "+2.5" := by decide
    rw [extract_percentage, if_neg (by decide), h1]
    show pyFloat ("+2.5".toList).asString = _
    rw [h2, pyFloat_pos25]
  · have h1 : searchNum ((dropChar "-3.1%" '%').toList) = some "-3.1".toList := by
      decide
    have h2 : ("-3.1".toList).asString = "-3.1" := by decide
    rw [extract_percentage, if_neg (by decide), h1]
    show pyFloat ("-3.1".toList).asString = _
    rw [h2, pyFloat_neg31]

/-- Claim C4: an empty observation list gives a valid all-zero quote
with empty sources and low data quality, in both consolidators. -/
theorem c4_empty_observation_list (s c t : String) :
    consolidate_data [] s c t =
      { symbol := s, company_name := c, current_price := 0, change_percent := 0,
        day_high := 0, day_low := 0, volume := 0, last_updated := t,
        sources := [], data_quality := "low" }
    ∧ consolidate_stock_data [] s c t =
      { symbol := s, company_name := c, current_price := 0, change_percent := 0,
        day_high := 0, day_low := 0, volume := 0, last_updated := t,
        sources := [], data_quality := "low" } :=
  ⟨rfl, rfl⟩

/-- Claim C5: in both consolidators the data quality is a function of
the observation count alone: high for three or more, medium for exactly
two, low otherwise. -/
theorem c5_data_quality_from_count (l : List Obs) (s c t : String) :
    (consolidate_data l s c t).data_quality =
      (if 3 ≤ l.length then "high" else if 2 ≤ l.length then "medium" else "low")
    ∧ (consolidate_stock_data l s c t).data_quality =
      (if 3 ≤ l.length then "high" else if 2 ≤ l.length then "medium" else "low") := by
  by_cases he : l = []
  · subst he
    exact ⟨rfl, rfl⟩
  · constructor <;> simp [consolidate_data, consolidate_stock_data, he]

/-- Claim C2 counterexample: on the two prices 100 and 200 the
consolidator returns 200, not the claimed lower value 100. -/
theorem c2_counterexample :
    (consolidate_data
      [⟨some "A", some 100, none, none, none⟩,
       ⟨some "B", some 200, none, none, none⟩] "S" "C" "T").current_price ≠ 100 := by
  decide

/-- Claim C2 amended: for the two-element price sequence 100, 200 both
consolidators return 200, the upper of the two middle values, not the
average 150; for the three-element sequence 100, 200, 300 they return
the median 200. -/
theorem c2_amended_consensus :
    (consolidate_data
      [⟨some "A", some 100, none, none, none⟩,
       ⟨some "B", some 200, none, none, none⟩] "S" "C" "T").current_price = 200
    ∧ (consolidate_stock_data
      [⟨some "A", some 100, none, none, none⟩,
       ⟨some "B", some 200, none, none, none⟩] "S" "C" "T").current_price = 200
    ∧ (consolidate_data
      [⟨some "A", some 100, none, none, none⟩,
       ⟨some "B", some 200, none, none, none⟩,
       ⟨some "Z", some 300, none, none, none⟩] "S" "C" "T").current_price = 200
    ∧ (consolidate_stock_data
      [⟨some "A", some 100, none, none, none⟩,
       ⟨some "B", some 200, none, none, none⟩,
       ⟨some "Z", some 300, none, none, none⟩] "S" "C" "T").current_price = 200 := by
  refine ⟨by decide, by decide, by decide, by decide⟩

/-- Claim C1 counterexample: the scrape-stock consolidator never
consolidates day_high, so on one observation carrying day_high 500 the
output stays 0 instead of the element at half length of the ascending
sort of the collected values, which is 500. -/
theorem c1_counterexample :
    (consolidate_data [⟨some "A", none, none, some 500, none⟩] "S" "C" "T").day_high
      ≠ [(500 : ℚ)].getD ([(500 : ℚ)].length / 2) 0
    ∧ truthyVals Obs.day_high [(⟨some "A", none, none, some 500, none⟩ : Obs)]
      = [(500 : ℚ)]
    ∧ List.Sorted (fun a b : ℚ => a ≤ b) [(500 : ℚ)] :=
  ⟨by decide, by decide, List.sorted_singleton 500⟩

/-- Claim C1 amended: in the stock-scraper consolidator every one of the
four numeric fields equals the element at zero-based index half the
count of any ascending arrangement of the collected values of that
field, the empty collection giving 0; in the scrape-stock consolidator
this holds for current_price and change_percent, while day_high and
day_low are always 0 in the output. -/
theorem c1_amended_lower_median (l : List Obs) (s c t : String) (h : l ≠ []) :
    (∀ m, (truthyVals Obs.current_price l).Perm m →
      m.Sorted (fun a b => a ≤ b) →
      (consolidate_stock_data l s c t).current_price = m.getD (m.length / 2) 0)
    ∧ (∀ m, (truthyVals Obs.change_percent l).Perm m →
      m.Sorted (fun a b => a ≤ b) →
      (consolidate_stock_data l s c t).change_percent = m.getD (m.length / 2) 0)
    ∧ (∀ m, (truthyVals Obs.day_high l).Perm m →
      m.Sorted (fun a b => a ≤ b) →
      (consolidate_stock_data l s c t).day_high = m.getD (m.length / 2) 0)
    ∧ (∀ m, (truthyVals Obs.day_low l).Perm m →
      m.Sorted (fun a b => a ≤ b) →
      (consolidate_stock_data l s c t).day_low = m.getD (m.length / 2) 0)
    ∧ (∀ m, (truthyVals Obs.current_price l).Perm m →
      m.Sorted (fun a b => a ≤ b) →
      (consolidate_data l s c t).current_price = m.getD (m.length / 2) 0)
    ∧ (∀ m, (truthyVals Obs.change_percent l).Perm m →
      m.Sorted (fun a b => a ≤ b) →
      (consolidate_data l s c t).change_percent = m.getD (m.length / 2) 0)
    ∧ (consolidate_data l s c t).day_high = 0
    ∧ (consolidate_data l s c t).day_low = 0 := by
  refine ⟨?_, ?_, ?_, ?_, ?_, ?_, ?_, ?_⟩
  · intro m hp hs
    rw [consolidate_stock_data, if_neg h]
    exact pickMedian_eq_sorted _ m hp hs
  · intro m hp hs
    rw [consolidate_stock_data, if_neg h]
    exact pickMedian_eq_sorted _ m hp hs
  · intro m hp hs
    rw [consolidate_stock_data, if_neg h]
    exact pickMedian_eq_sorted _ m hp hs
  · intro m hp hs
    rw [consolidate_stock_data, if_neg h]
    exact pickMedian_eq_sorted _ m hp hs
  · intro m hp hs
    rw [consolidate_data, if_neg h]
    exact pickMedian_eq_sorted _ m hp hs
  · intro m hp hs
    rw [consolidate_data, if_neg h]
    exact pickMedian_eq_sorted _ m hp hs
  · rw [consolidate_data, if_neg h]
  · rw [consolidate_data, if_neg h]

/-- Witness for the amended claim C1 at a one-observation input. -/
theorem c1_amended_witness :
    (consolidate_stock_data [⟨some "A", some 2, some 3, some 4, some 5⟩]
        "S" "C" "T").current_price
      = [(2 : ℚ)].getD ([(2 : ℚ)].length / 2) 0 :=
  (c1_amended_lower_median [⟨some "A", some 2, some 3, some 4, some 5⟩]
      "S" "C" "T" (by decide)).1 [(2 : ℚ)]
    (by decide) (List.sorted_singleton 2)

/-- The per-field collection distributes over list append. -/
theorem truthyVals_append (f : Obs → Option ℚ) (l₁ l₂ : List Obs) :
    truthyVals f (l₁ ++ l₂) = truthyVals f l₁ ++ truthyVals f l₂ :=
  List.filterMap_append l₁ l₂ _

/-- An observation whose field value is exactly zero contributes nothing
to that field collection. -/
theorem truthyVals_zero_dropped (f : Obs → Option ℚ) (l₁ l₂ : List Obs)
    (o : Obs) (h : f o = some 0) :
    truthyVals f (l₁ ++ o :: l₂) = truthyVals f (l₁ ++ l₂) := by
  simp [truthyVals, List.filterMap_append, h]

/-- Claim C10: in both consolidators an observation carrying a field
with value exactly 0 is dropped from that field median computation, by
Python truthiness, while its source name still appears in sources and it
still counts toward the data-quality tier. -/
theorem c10_zero_valued_field (l₁ l₂ : List Obs) (o : Obs) (s c t : String)
    (h : o.change_percent = some 0) :
    truthyVals Obs.change_percent (l₁ ++ o :: l₂)
      = truthyVals Obs.change_percent (l₁ ++ l₂)
    ∧ (consolidate_data (l₁ ++ o :: l₂) s c t).change_percent
      = pickMedian (truthyVals Obs.change_percent (l₁ ++ l₂))
    ∧ (consolidate_stock_data (l₁ ++ o :: l₂) s c t).change_percent
      = pickMedian (truthyVals Obs.change_percent (l₁ ++ l₂))
    ∧ (consolidate_data (l₁ ++ o :: l₂) s c t).sources
      = l₁.map (fun d => d.source.getD "Unknown")
        ++ o.source.getD "Unknown" :: l₂.map (fun d => d.source.getD "Unknown")
    ∧ (consolidate_stock_data (l₁ ++ o :: l₂) s c t).sources
      = l₁.map (fun d => d.source.getD "Unknown")
        ++ o.source.getD "Unknown" :: l₂.map (fun d => d.source.getD "Unknown")
    ∧ (consolidate_data (l₁ ++ o :: l₂) s c t).data_quality
      = (if 3 ≤ l₁.length + l₂.length + 1 then "high"
         else if 2 ≤ l₁.length + l₂.length + 1 then "medium" else "low")
    ∧ (consolidate_stock_data (l₁ ++ o :: l₂) s c t).data_quality
      = (if 3 ≤ l₁.length + l₂.length + 1 then "high"
         else if 2 ≤ l₁.length + l₂.length + 1 then "medium" else "low") := by
  have hne : l₁ ++ o :: l₂ ≠ [] := by simp
  have hv := truthyVals_zero_dropped Obs.change_percent l₁ l₂ o h
  have hlen : (l₁ ++ o :: l₂).length = l₁.length + l₂.length + 1 := by
    simp
    omega
  refine ⟨hv, ?_, ?_, ?_, ?_, ?_, ?_⟩
  · rw [consolidate_data, if_neg hne, hv]
  · rw [consolidate_stock_data, if_neg hne, hv]
  · rw [consolidate_data, if_neg hne]
    simp
  · rw [consolidate_stock_data, if_neg hne]
    simp
  · rw [consolidate_data, if_neg hne]
    rw [hlen]
  · rw [consolidate_stock_data, if_neg hne]
    rw [hlen]

/-- Witness for claim C10 at a two-observation input with one zero
change value. -/
theorem c10_witness :
    truthyVals Obs.change_percent
        ([⟨some "A", none, some 1, none, none⟩]
          ++ (⟨some "B", none, some 0, none, none⟩ : Obs) :: [])
      = truthyVals Obs.change_percent ([⟨some "A", none, some 1, none, none⟩] ++ []) :=
  (c10_zero_valued_field [⟨some "A", none, some 1, none, none⟩] []
      ⟨some "B", none, some 0, none, none⟩ "S" "C" "T" rfl).1

/-- Any price produced by the beautifulsoup price loop passed its
positivity check. -/
theorem bsFirstPrice_pos (soup : Soup) (sels : List String) (p : ℚ)
    (h : bsFirstPrice soup sels = some p) : 0 < p := by
  induction sels with
  | nil => simp [bsFirstPrice] at h
  | cons sel rest ih =>
    rw [bsFirstPrice] at h
    split at h
    · split at h
      · split at h
        · rename_i hq
          injection h with h
          exact h ▸ hq
        · exact ih h
      · exact ih h
    · exact ih h

/-- Any price produced by the inner loop of the generic fallbacks passed
the accepted range filter. -/
theorem firstValidPrice_range (ms : List String) (p : ℚ)
    (h : firstValidPrice ms = some p) : 1 ≤ p ∧ p ≤ 100000 := by
  induction ms with
  | nil => simp [firstValidPrice] at h
  | cons m rest ih =>
    rw [firstValidPrice] at h
    split at h
    · split at h
      · rename_i hq
        injection h with h
        exact h ▸ hq.2
      · exact ih h
    · exact ih h

/-- Any price produced by the outer pattern loop passed the accepted
range filter. -/
theorem priceFromPatterns_range (findall : String → String → List String)
    (text : String) (pats : List String) (p : ℚ)
    (h : priceFromPatterns findall text pats = some p) :
    1 ≤ p ∧ p ≤ 100000 := by
  induction pats with
  | nil => simp [priceFromPatterns] at h
  | cons pat rest ih =>
    rw [priceFromPatterns] at h
    split at h
    · rename_i q hf
      injection h with h
      exact h ▸ firstValidPrice_range _ q hf
    · exact ih h

/-- Any change produced by the inner loop of _extract_with_regex passed
the accepted range filter. -/
theorem firstValidChange_range (ms : List String) (c : ℚ)
    (h : firstValidChange ms = some c) : -50 ≤ c ∧ c ≤ 50 := by
  induction ms with
  | nil => simp [firstValidChange] at h
  | cons m rest ih =>
    rw [firstValidChange] at h
    split at h
    · split at h
      · rename_i hq
        injection h with h
        exact h ▸ hq
      · exact ih h
    · exact ih h

/-- Any change produced by the outer pattern loop of _extract_with_regex
passed the accepted range filter. -/
theorem changeFromPatterns_range (findall : String → String → List String)
    (text : String) (pats : List String) (c : ℚ)
    (h : changeFromPatterns findall text pats = some c) :
    -50 ≤ c ∧ c ≤ 50 := by
  induction pats with
  | nil => simp [changeFromPatterns] at h
  | cons pat rest ih =>
    rw [changeFromPatterns] at h
    split at h
    · rename_i q hf
      injection h with h
      exact h ▸ firstValidChange_range _ q hf
    · exact ih h

/-- Claim C3 counterexample: the moneycontrol routine of
stock-scraper.py returns an observation that carries only a change
percentage and no price, instead of returning none. -/
theorem c3_counterexample :
    scrape_moneycontrol (fun sel => if sel = ".gD_12 .FL" then some "+3%" else none)
      = some ⟨none, none, some 3, none, none⟩ := by
  decide

/-- Claim C3 amended: in the scrape-stock variant both extraction
routines return no observation when no current_price was extracted; the
stock-scraper variant instead returns any nonempty observation, so a
change-only observation is retained there. -/
theorem c3_amended_price_required (soup : Soup) (source html : String)
    (findall : String → String → List String) (o o2 : Obs) :
    (extract_with_beautifulsoup soup source = some o → o.current_price ≠ none)
    ∧ (extract_with_regex findall html source = some o2 → o2.current_price ≠ none) := by
  constructor
  · intro h
    simp only [extract_with_beautifulsoup] at h
    split at h
    · injection h with h
      rw [← h]
      simp
    · simp at h
  · intro h
    simp only [extract_with_regex] at h
    split at h
    · injection h with h
      rw [← h]
      simp
    · simp at h

/-- Witness for the amended claim C3 on a generic-selector document
carrying a price of 123. -/
theorem c3_amended_witness :
    ((⟨some "X", some 123, none, none, none⟩ : Obs).current_price) ≠ none :=
  (c3_amended_price_required
      (fun sel => if sel = ".price" then some "123" else none) "X" "h"
      (fun _ _ => []) ⟨some "X", some 123, none, none, none⟩
      ⟨none, none, none, none, none⟩).1 (by decide)

/-- Claim C6 counterexample: the generic routine of stock-scraper.py
accepts a change percentage of 99, far outside the range -50 to 50,
because it applies no range filter to the percentage match. -/
theorem c6_counterexample :
    scrape_generic_financial_site
        (fun pat _ => if pat = genericPercentPattern then ["99"] else []) "page"
      = some ⟨none, none, some 99, none, none⟩
    ∧ ¬ ((99 : ℚ) ≤ 50) :=
  ⟨by decide, by decide⟩

/-- Claim C6 amended: the accepted price range 1 to 100000 is enforced
by both generic fallbacks, and the change range -50 to 50 is enforced by
the scrape-stock regex routine, while the stock-scraper generic routine
applies no range filter to the change percentage. -/
theorem c6_amended_range_filters (findall : String → String → List String)
    (html source : String) (o o2 : Obs) :
    (extract_with_regex findall html source = some o →
      (∀ p, o.current_price = some p → 1 ≤ p ∧ p ≤ 100000)
      ∧ (∀ q, o.change_percent = some q → -50 ≤ q ∧ q ≤ 50))
    ∧ (scrape_generic_financial_site findall html = some o2 →
      ∀ p, o2.current_price = some p → 1 ≤ p ∧ p ≤ 100000) := by
  constructor
  · intro h
    simp only [extract_with_regex] at h
    split at h
    · rename_i p0 hp0
      injection h with h
      subst h
      constructor
      · intro p hp
        injection hp with hpe
        exact hpe ▸ priceFromPatterns_range findall _ _ p0 hp0
      · intro q hq
        exact changeFromPatterns_range findall _ _ q hq
    · simp at h
  · intro h
    simp only [scrape_generic_financial_site] at h
    split at h
    · split at h
      · injection h with h
        subst h
        intro p hp
        exact priceFromPatterns_range findall _ _ p hp
      · simp at h
    · split at h
      · injection h with h
        subst h
        intro p hp
        exact priceFromPatterns_range findall _ _ p hp
      · simp at h

/-- Witness for the amended claim C6 on a run extracting the price 123. -/
theorem c6_amended_witness :
    (1 : ℚ) ≤ 123 ∧ (123 : ℚ) ≤ 100000 :=
  ((c6_amended_range_filters (fun _ _ => ["123"]) "h" "X"
      ⟨some "X", some 123, none, none, none⟩
      ⟨none, none, none, none, none⟩).1 (by decide)).1 123 rfl

/-- Claim C7 counterexample: the moneycontrol routine of
stock-scraper.py stores a negative current_price, because its truthiness
check does not exclude negative values. -/
theorem c7_counterexample :
    scrape_moneycontrol (fun sel => if sel = ".pcnstkprc" then some "-5" else none)
      = some ⟨none, some (-5), none, none, none⟩
    ∧ ¬ ((0 : ℚ) ≤ -5) :=
  ⟨by decide, by decide⟩

/-- Claim C7 amended: in the scrape-stock variant every stored
current_price is non-negative, and its beautifulsoup routine never
stores day_high or day_low; the generic fallback of stock-scraper.py
also stores only non-negative prices; the per-site routines of
stock-scraper.py can store negative values. -/
theorem c7_amended_nonneg (soup : Soup) (source html : String)
    (findall : String → String → List String) (oA oB oC : Obs) :
    (extract_with_beautifulsoup soup source = some oA →
      (∀ p, oA.current_price = some p → 0 ≤ p)
      ∧ oA.day_high = none ∧ oA.day_low = none)
    ∧ (extract_with_regex findall html source = some oB →
      ∀ p, oB.current_price = some p → 0 ≤ p)
    ∧ (scrape_generic_financial_site findall html = some oC →
      ∀ p, oC.current_price = some p → 0 ≤ p) := by
  refine ⟨?_, ?_, ?_⟩
  · intro h
    simp only [extract_with_beautifulsoup] at h
    split at h
    · rename_i p0 hp0
      injection h with h
      subst h
      refine ⟨?_, rfl, rfl⟩
      intro p hp
      injection hp with hpe
      exact hpe ▸ le_of_lt (bsFirstPrice_pos soup _ p0 hp0)
    · simp at h
  · intro h
    simp only [extract_with_regex] at h
    split at h
    · rename_i p0 hp0
      injection h with h
      subst h
      intro p hp
      injection hp with hpe
      refine hpe ▸ le_trans (by norm_num) (priceFromPatterns_range findall _ _ p0 hp0).1
    · simp at h
  · intro h
    simp only [scrape_generic_financial_site] at h
    split at h
    · split at h
      · injection h with h
        subst h
        intro p hp
        exact le_trans (by norm_num) (priceFromPatterns_range findall _ _ p hp).1
      · simp at h
    · split at h
      · injection h with h
        subst h
        intro p hp
        exact le_trans (by norm_num) (priceFromPatterns_range findall _ _ p hp).1
      · simp at h

/-- Witness for the amended claim C7 on a document carrying the price
123. -/
theorem c7_amended_witness : (0 : ℚ) ≤ 123 :=
  ((c7_amended_nonneg (fun sel => if sel = ".price" then some "123" else none)
      "X" "h" (fun _ _ => []) ⟨some "X", some 123, none, none, none⟩
      ⟨none, none, none, none, none⟩ ⟨none, none, none, none, none⟩).1
    (by decide)).1 123 rfl
